import Mathlib

/-!
Verification development for the pybot repository: a shallow embedding of
`src/trackers/base_klt.py` (the BaseKLT / OpenCVKLT orchestrator) and
`src/pybot/utils/dataset/kitti.py` (KITTI dataset glue), with theorems
settling the specification claims about them.

External collaborators (cv2, the FeatureDetector / OpticalFlowTracker,
preprocessing) are embedded as opaque function parameters.  The TrackManager
and RigidTransform classes live in external modules that are not under src/,
so they are modelled from the spec (marked in their doc comments).
-/

set_option maxHeartbeats 1000000

/-- A 2D feature point with rational coordinates (embedding the float
    coordinates used by the tracker). -/
structure Pt where
  x : ℚ
  y : ℚ
deriving DecidableEq

/-- Python `int()` / numpy `astype(np.int32)` truncation toward zero. -/
def ratTrunc (q : ℚ) : ℤ :=
  if 0 ≤ q then ⌊q⌋ else ⌈q⌉

/-- Integer-cast pixel position of a point, as in `tuple(map(int, pt))` and
    `detected_pts.astype(np.int32)`; the pair is (x, y). -/
def truncPt (p : Pt) : ℤ × ℤ :=
  (ratTrunc p.x, ratTrunc p.y)

/-- Squared euclidean distance between integer pixel positions. -/
def sqDistZ (a b : ℤ × ℤ) : ℤ :=
  (a.1 - b.1) ^ 2 + (a.2 - b.2) ^ 2

/-- Squared euclidean distance between raw (rational-coordinate) points. -/
def sqDistQ (a b : Pt) : ℚ :=
  (a.x - b.x) ^ 2 + (a.y - b.y) ^ 2

/-- Modelled from the spec: the `TrackManager` class comes from the external
    `bot_vision.trackers` module, which is not under src/.  Following spec
    §4.1 it owns a map from track id to bounded point history (most recent
    last) plus a monotone fresh-id counter; `maxlen` is the configured
    maximum history length. -/
structure TrackManager where
  maxlen : ℕ
  nextId : ℕ
  tracks : List (ℕ × List Pt)
deriving DecidableEq

/-- Current ordered sequence of active track ids (spec §4.1 `ids`). -/
def TrackManager.ids (tm : TrackManager) : List ℕ :=
  tm.tracks.map Prod.fst

/-- Latest point of each active track, positionally parallel to `ids`
    (spec §4.1 `pts`; empty, never `None`, when there are no tracks). -/
def TrackManager.pts (tm : TrackManager) : List Pt :=
  tm.tracks.filterMap (fun t => t.2.getLast?)

/-- Append a point to a history, evicting the oldest entries beyond the
    configured maximum length (spec §4.1: fixed-size sliding window). -/
def appendBounded (maxlen : ℕ) (h : List Pt) (p : Pt) : List Pt :=
  let h2 := h ++ [p]
  h2.drop (h2.length - maxlen)

/-- Modelled from the spec: `TrackManager.add(points, ids, prune)` of spec
    §4.1.  With `ids` given, each (id, point) pair appends to that track's
    bounded history and, when `prune` is set, tracks absent from `ids` are
    removed; with `ids = none`, every point becomes a fresh single-entry
    track under a never-before-used id. -/
def TrackManager.add (tm : TrackManager) (ps : List Pt) (ids : Option (List ℕ))
    (prune : Bool) : TrackManager :=
  match ids with
  | some given =>
      let pairs := given.zip ps
      let kept := if prune then tm.tracks.filter (fun t => given.contains t.1) else tm.tracks
      { tm with tracks := kept.map (fun t =>
          match pairs.lookup t.1 with
          | some p => (t.1, appendBounded tm.maxlen t.2 p)
          | none => t) }
  | none =>
      { tm with
        nextId := tm.nextId + ps.length
        tracks := tm.tracks ++ ps.enum.map (fun ip => (tm.nextId + ip.1, [ip.2])) }

/-- Value of the occupancy mask built by `OpenCVKLT.create_mask` at an
    in-bounds pixel q = (x, y): the mask starts all 255 and
    `cv2.circle(mask, int-center, 9, 0, -1)` paints the closed radius-9 disk
    around the integer-cast position of every previous point with 0. -/
def maskVal (centers : List Pt) (q : ℤ × ℤ) : ℕ :=
  if centers.any (fun c => decide (sqDistZ (truncPt c) q ≤ 81)) then 0 else 255

/-- numpy integer indexing into an axis of size n: index i is valid iff
    -n ≤ i < n, and a negative i wraps to n + i; `none` is an IndexError. -/
def wrapIdx (n : ℕ) (i : ℤ) : Option ℕ :=
  if -(n : ℤ) ≤ i ∧ i < (n : ℤ) then some (i.emod (n : ℤ)).toNat else none

/-- The lookup `mask[int(p).y, int(p).x]` for an image of shape (h, w);
    `none` models the IndexError raised on an out-of-bounds candidate. -/
def maskAt (shape : ℕ × ℕ) (centers : List Pt) (p : Pt) : Option ℕ :=
  match wrapIdx shape.1 (truncPt p).2, wrapIdx shape.2 (truncPt p).1 with
  | some y, some x => some (maskVal centers ((x : ℤ), (y : ℤ)))
  | _, _ => none

/-- Whether a candidate point survives the mask: its mask value exists and is
    nonzero (`valid = mask[xy[:,1], xy[:,0]] > 0`). -/
def maskOkB (shape : ℕ × ℕ) (centers : List Pt) (p : Pt) : Bool :=
  decide (0 < (maskAt shape centers p).getD 0)

/-- The `detected_pts` branch of `OpenCVKLT.process`:
    `xy = detected_pts.astype(np.int32)`,
    `valid = mask[xy[:,1], xy[:,0]] > 0` (an out-of-bounds lookup raises),
    and the surviving candidates `detected_pts[valid]` are returned. -/
def candFilter (shape : ℕ × ℕ) (centers : List Pt) (cands : List Pt) :
    Except String (List Pt) :=
  if cands.all (fun p => (maskAt shape centers p).isSome) then
    .ok (cands.filter (fun p => maskOkB shape centers p))
  else
    .error "index out of bounds"

/-- The collaborators of OpenCVKLT that are external to the repository:
    preprocessing (`gaussian_blur(to_gray(im))`), the image shape, the
    feature detector `detector_.process(im, mask)` and the optical-flow
    tracker `tracker_.track(prev, cur, pts)` are all opaque parameters. -/
structure KLTParams (Img : Type) where
  pre : Img → Img
  shape : Img → ℕ × ℕ
  detect : Img → (ℤ × ℤ → ℕ) → List Pt
  track : Img → Img → List Pt → List Pt

/-- Mutable state of an OpenCVKLT instance: the TrackManager `tm_`, the
    rolling frame buffer `ims_` (a deque of maxlen 2), the replenish flag
    `add_features_` and the `min_tracks_` threshold. -/
structure KLT (Img : Type) where
  tm : TrackManager
  ims : List Img
  add_features : Bool
  min_tracks : ℕ
deriving DecidableEq

/-- One `TrackManager.add` call issued during `process`, with its arguments:
    `addTracked` is the propagation call `add(pts, ids=pids, prune=True)`
    (recording the two frames handed to the flow tracker), `addNew` is the
    replenish call `add(new_pts, ids=None, prune=False)`. -/
inductive AddEvent (Img : Type) where
  | addTracked (prev curr : Img) (ps : List Pt) (ids : List ℕ)
  | addNew (ps : List Pt)
deriving DecidableEq

/-- The last two elements of a list, oldest first. -/
def lastTwo {α : Type} (l : List α) : List α :=
  (l.reverse.take 2).reverse

/-- Appending to a `deque(maxlen=2)`: keep only the two most recent items. -/
def dequePush {α : Type} (l : List α) (x : α) : List α :=
  lastTwo (l ++ [x])

/-- Result of a successful `process` call: the updated tracker state, the
    returned `(ids, pts)` pair and the trace of TrackManager.add calls. -/
structure ProcResult (Img : Type) where
  state : KLT Img
  ret : List ℕ × List Pt
  trace : List (AddEvent Img)
deriving DecidableEq

/-- The propagation step of `OpenCVKLT.process` (lines 147-151): when two
    preprocessed frames are buffered and there are previous points, run the
    flow tracker on them and add the result with the previous ids and
    `prune=True`; otherwise leave the TrackManager untouched. -/
def trackStep {Img : Type} (P : KLTParams Img) (tm : TrackManager) (ims : List Img) :
    TrackManager × List (AddEvent Img) :=
  match ims with
  | [prev, curr] =>
      if tm.pts.isEmpty then (tm, [])
      else
        let tracked := P.track prev curr tm.pts
        (tm.add tracked (some tm.ids) true, [.addTracked prev curr tracked tm.ids])
  | _ => (tm, [])

/-- The feature-extraction step of `OpenCVKLT.process` (lines 162-167): with
    no supplied candidates, run the detector on the newest preprocessed frame
    under the occupancy mask; otherwise filter the supplied candidates by the
    same mask (which can raise on an out-of-bounds candidate). -/
def replenishPts {Img : Type} (P : KLTParams Img) (im : Img) (ppts : List Pt)
    (detected : Option (List Pt)) : Except String (List Pt) :=
  match detected with
  | none => .ok (P.detect (P.pre im) (maskVal ppts))
  | some cands => candFilter (P.shape im) ppts cands

/-- Shallow embedding of `OpenCVKLT.process(im, detected_pts)`:
    preprocess and push onto the length-2 buffer; read the previous ids and
    points; propagate with `prune=True` when possible; recompute the
    add-features flag from the previous point count; if set, build the mask
    from the previous points, obtain new points (detector or filtered
    candidates), register them with `ids=None, prune=False` and clear the
    flag; finally return the current `(ids, pts)`. -/
def KLT.process {Img : Type} (P : KLTParams Img) (s : KLT Img) (im : Img)
    (detected : Option (List Pt)) : Except String (ProcResult Img) :=
  let ims := dequePush s.ims (P.pre im)
  let st := trackStep P s.tm ims
  let addf := s.add_features || decide (s.tm.pts.length < s.min_tracks)
  if addf then
    match replenishPts P im s.tm.pts detected with
    | .error e => .error e
    | .ok newPts =>
        let tm2 := st.1.add newPts none false
        .ok ⟨⟨tm2, ims, false, s.min_tracks⟩, (tm2.ids, tm2.pts), st.2 ++ [.addNew newPts]⟩
  else
    .ok ⟨⟨st.1, ims, addf, s.min_tracks⟩, (st.1.ids, st.1.pts), st.2⟩

/-- Fold `process` over a sequence of (image, detected_pts) inputs. -/
def runKLT {Img : Type} (P : KLTParams Img) : KLT Img → List (Img × Option (List Pt)) →
    Except String (KLT Img)
  | s, [] => .ok s
  | s, (im, d) :: rest =>
      match KLT.process P s im d with
      | .error e => .error e
      | .ok r => runKLT P r.state rest

/-- Python-style list indexing `h[i]` with negative offsets counting from the
    end; `none` models the IndexError. -/
def pyGet (h : List Pt) (i : ℤ) : Option Pt :=
  let j := if i < 0 then (h.length : ℤ) + i else i
  if 0 ≤ j ∧ j < (h.length : ℤ) then h[j.toNat]? else none

/-- The tracks selected by `BaseKLT.matches`: those whose history length is
    strictly greater than |index1| and |index2| (the source guard
    `len(pts) > abs(index1) and len(pts) > abs(index2)`). -/
def matchesSel (tm : TrackManager) (i1 i2 : ℤ) : List (ℕ × List Pt) :=
  tm.tracks.filter (fun t => decide (i1.natAbs < t.2.length) && decide (i2.natAbs < t.2.length))

/-- Shallow embedding of `BaseKLT.matches(index1, index2)` (lines 104-114):
    parallel lists of ids, first points and second points over the selected
    tracks; an empty selection yields empty arrays (the vstack raise is
    caught and turned into empty arrays in the source). -/
def BaseKLT.matches (tm : TrackManager) (i1 i2 : ℤ) : List ℕ × List Pt × List Pt :=
  let sel := matchesSel tm i1 i2
  (sel.map Prod.fst, sel.filterMap (fun t => pyGet t.2 i1), sel.filterMap (fun t => pyGet t.2 i2))

/-- Stereo camera intrinsics as given by `StereoCamera.from_calib_params` in
    the calibration table of `KITTIDatasetReader` (kitti.py lines 53-58). -/
structure StereoCameraParams where
  fx : ℚ
  fy : ℚ
  cx : ℚ
  cy : ℚ
  baseline_px : ℚ
deriving DecidableEq

/-- Calibration entry for KITTI sequences 0-2. -/
def kitti_00_02 : StereoCameraParams :=
  ⟨718.86, 718.86, 607.19, 185.22, 386.1448⟩

/-- Calibration entry for KITTI sequence 3. -/
def kitti_03 : StereoCameraParams :=
  ⟨721.5377, 721.5377, 609.5593, 172.854, 387.5744⟩

/-- Calibration entry for KITTI sequences 4-12. -/
def kitti_04_12 : StereoCameraParams :=
  ⟨707.0912, 707.0912, 601.8873, 183.1104, 379.8145⟩

/-- A calibration entry together with the scale passed to `.scaled(scale)`
    (the scaling itself is external to the repository). -/
structure ScaledCalib where
  base : StereoCameraParams
  scale : ℚ
deriving DecidableEq

/-- Shallow embedding of `kitti_stereo_calib(sequence, scale)` (kitti.py
    lines 17-27), taking the already-int-converted sequence number: ranges
    0-2, 3 and 4-12 select the three table entries, anything else raises. -/
def kitti_stereo_calib (seq : ℤ) (scale : ℚ) : Except String ScaledCalib :=
  if 0 ≤ seq ∧ seq ≤ 2 then .ok ⟨kitti_00_02, scale⟩
  else if seq = 3 then .ok ⟨kitti_03, scale⟩
  else if 4 ≤ seq ∧ seq ≤ 12 then .ok ⟨kitti_04_12, scale⟩
  else .error "Error retrieving stereo calibration"

/-- A per-frame modality of a dataset composer: either a successfully
    constructed reader or the `repeat(None)` placeholder installed when
    construction of the reader failed. -/
inductive Modality (α : Type) where
  | reader (r : α)
  | absent
deriving DecidableEq

/-- The `try: ... except: self.x = repeat(None)` pattern around an external
    reader construction. -/
def toModality {α : Type} : Except String α → Modality α
  | .ok r => .reader r
  | .error _ => .absent

/-- Iterating a modality: a real reader yields its items, the `repeat(None)`
    placeholder yields `none` at every index. -/
def Modality.stream {α β : Type} (run : α → ℕ → Option β) : Modality α → ℕ → Option β
  | .reader r, n => run r n
  | .absent, _ => none

/-- The attributes of a constructed `KITTIDatasetReader` that C6 concerns. -/
structure KITTIDatasetReaderS (S PR VR : Type) where
  calib : ScaledCalib
  stereo : S
  poses : Modality PR
  velodyne : Modality VR
deriving DecidableEq

/-- Shallow embedding of `KITTIDatasetReader.__init__` (kitti.py lines
    62-99): the calibration lookup and the stereo reader construction
    propagate failure, while the pose reader and the velodyne reader are
    each wrapped in try/except and degrade to `repeat(None)`. -/
def KITTIDatasetReader.init {S PR VR : Type} (calib : Except String ScaledCalib)
    (stereo : Except String S) (poses : Except String PR)
    (velodyne : Except String VR) : Except String (KITTIDatasetReaderS S PR VR) :=
  match calib with
  | .error e => .error e
  | .ok c =>
    match stereo with
    | .error e => .error e
    | .ok st => .ok ⟨c, st, toModality poses, toModality velodyne⟩

/-- The attributes of a constructed `KITTIRawDatasetReader` that C6
    concerns; note that `velodyne` is not optional here. -/
structure KITTIRawDatasetReaderS (S PR VR OR : Type) where
  calib : ScaledCalib
  stereo : S
  poses : Modality PR
  velodyne : VR
  oxts : Modality OR
deriving DecidableEq

/-- Shallow embedding of `KITTIRawDatasetReader.__init__` (kitti.py lines
    241-284): after the superclass work (calibration and stereo propagate
    failure), the pose reader and the OXTS reader are wrapped in try/except,
    but the velodyne reader construction (lines 266-270) is NOT guarded, so
    its failure propagates out of the constructor. -/
def KITTIRawDatasetReader.init {S PR VR OR : Type} (calib : Except String ScaledCalib)
    (stereo : Except String S) (poses : Except String PR)
    (velodyne : Except String VR) (oxts : Except String OR) :
    Except String (KITTIRawDatasetReaderS S PR VR OR) :=
  match calib with
  | .error e => .error e
  | .ok c =>
    match stereo with
    | .error e => .error e
    | .ok st =>
      match velodyne with
      | .error e => .error e
      | .ok v => .ok ⟨c, st, toModality poses, v, toModality oxts⟩

/-- Modelled from the spec: `RigidTransform` (rotation + translation) comes
    from `pybot.geometry.rigid_transform`, which is not under src/.  The
    twelve entries are the top three rows of the 4x4 transform matrix. -/
structure RigidTransform where
  r00 : ℚ
  r01 : ℚ
  r02 : ℚ
  r10 : ℚ
  r11 : ℚ
  r12 : ℚ
  r20 : ℚ
  r21 : ℚ
  r22 : ℚ
  t0 : ℚ
  t1 : ℚ
  t2 : ℚ
deriving DecidableEq

/-- `(x.matrix[:3,:4]).flatten()`: the twelve numbers of one serialized pose
    line, row-major over the top three rows of the 4x4 matrix. -/
def RigidTransform.matrixRow (p : RigidTransform) : List ℚ :=
  [p.r00, p.r01, p.r02, p.t0, p.r10, p.r11, p.r12, p.t1, p.r20, p.r21, p.r22, p.t2]

/-- Shallow embedding of `kitti_poses_to_str(poses)` (kitti.py lines 40-42):
    the serialized text is modelled at the token level, as the concatenated
    whitespace-separated numbers (12 per pose, one line per pose). -/
def kitti_poses_to_str (ps : List RigidTransform) : List ℚ :=
  ps.flatMap RigidTransform.matrixRow

/-- Grouping the parsed number stream 12 at a time and rebuilding each pose
    via `RigidTransform.from_Rt(p[:3,:3], p[:3,3])` after `reshape(3,4)`. -/
def parsePoses : List ℚ → List RigidTransform
  | a0 :: a1 :: a2 :: a3 :: a4 :: a5 :: a6 :: a7 :: a8 :: a9 :: a10 :: a11 :: rest =>
      ⟨a0, a1, a2, a4, a5, a6, a8, a9, a10, a3, a7, a11⟩ :: parsePoses rest
  | _ => []

/-- Shallow embedding of `kitti_load_poses(fn)` (kitti.py lines 35-38):
    `np.fromfile(fn, sep=' ')` yields the token stream, `reshape(-1, 12)`
    requires the token count to be a multiple of 12 (else it raises, here
    `none`), and each row becomes a RigidTransform. -/
def kitti_load_poses (xs : List ℚ) : Option (List RigidTransform) :=
  if xs.length % 12 = 0 then some (parsePoses xs) else none

/-- A frame record yielded by an `iterframes` generator (the AttrDict with
    fields left, right, velodyne, pose). -/
structure FrameRecord (I P V : Type) where
  left : I
  right : I
  velodyne : Option V
  pose : Option P
deriving DecidableEq

/-- Shallow embedding of `KITTIDatasetReader.iterframes` (kitti.py lines
    119-121): zip the stereo frames with the pose stream and yield records
    whose velodyne field is the literal `None`. -/
def KITTIDatasetReader.iterframes {I P V : Type} (stereo : List (I × I))
    (poses : ℕ → Option P) : List (FrameRecord I P V) :=
  stereo.enum.map (fun nlr => ⟨nlr.2.1, nlr.2.2, none, poses nlr.1⟩)

/-- Shallow embedding of `KITTIStereoGroundTruthDatasetReader.iterframes`
    (kitti.py lines 228-230): here `self.poses = repeat(None)`, and the
    velodyne field is again the literal `None`. -/
def KITTIStereoGroundTruthDatasetReader.iterframes {I P V : Type}
    (stereo : List (I × I)) : List (FrameRecord I P V) :=
  stereo.enum.map (fun nlr => ⟨nlr.2.1, nlr.2.2, none, none⟩)

/-- Shallow embedding of `KITTIDatasetReader.iter_velodyne_frames` (kitti.py
    lines 107-112): the separate iterator that does expose the velodyne
    reader's point clouds. -/
def KITTIDatasetReader.iter_velodyne_frames {α β : Type} (run : α → ℕ → Option β)
    (velo : Modality α) : ℕ → Option β :=
  Modality.stream run velo

/-- Whether a candidate's integer-cast coordinates are valid indices into a
    mask of the given (h, w) shape. -/
def candIdxOk (shape : ℕ × ℕ) (p : Pt) : Bool :=
  (wrapIdx shape.1 (truncPt p).2).isSome && (wrapIdx shape.2 (truncPt p).1).isSome

/-- Empty TrackManager with the default maximum track length. -/
def tmEmpty : TrackManager := ⟨20, 0, []⟩

/-- Trivial collaborators over unit images: identity preprocessing, a 10x10
    shape, a detector finding nothing and a flow tracker propagating points
    unchanged. -/
def P0 : KLTParams Unit := ⟨id, fun _ => (10, 10), fun _ _ => [], fun _ _ ps => ps⟩

/-- A freshly constructed OpenCVKLT state over unit images (bootstrap:
    the add-features flag starts set). -/
def s0 : KLT Unit := ⟨tmEmpty, [], true, 1200⟩

/-- Trivial collaborators over natural-number images. -/
def P1 : KLTParams ℕ := ⟨id, fun _ => (10, 10), fun _ _ => [], fun _ _ ps => ps⟩

/-- A freshly constructed OpenCVKLT state over natural-number images, with
    min_tracks 0 so that replenishment is only triggered by bootstrap. -/
def s1 : KLT ℕ := ⟨tmEmpty, [], true, 0⟩

/-- A state with one buffered frame and one active track at (1,1). -/
def s2 : KLT ℕ := ⟨⟨20, 1, [(0, [⟨1, 1⟩])]⟩, [5], false, 0⟩

/-- The result of processing frame 7 with no candidates from state `s2`. -/
def R2 : ProcResult ℕ :=
  ⟨⟨⟨20, 1, [(0, [⟨1, 1⟩, ⟨1, 1⟩])]⟩, [5, 7], false, 0⟩, ([0], [⟨1, 1⟩]),
   [.addTracked 5 7 [⟨1, 1⟩] [0]]⟩

/-- An existing tracked point just below (1, 1): its integer cast is (0, 0). -/
def c3center : Pt := ⟨99 / 100, 99 / 100⟩

/-- A candidate at (7, 7): within real distance 9 of `c3center`, but its
    integer cast (7, 7) is outside the radius-9 disk around (0, 0). -/
def c3cand : Pt := ⟨7, 7⟩

/-- A state over unit images holding the single track at `c3center`, with the
    add-features flag set. -/
def s3 : KLT Unit := ⟨⟨20, 1, [(0, [c3center])]⟩, [], true, 1200⟩

/-- Collaborators over unit images with a 20x20 shape. -/
def P3 : KLTParams Unit := ⟨id, fun _ => (20, 20), fun _ _ => [], fun _ _ ps => ps⟩

/-- The result of processing a frame with candidate `c3cand` from `s3`. -/
def R3 : ProcResult Unit :=
  ⟨⟨⟨20, 2, [(0, [c3center]), (1, [c3cand])]⟩, [()], false, 1200⟩,
   ([0, 1], [c3center, c3cand]), [.addNew [c3cand]]⟩

/-- A tracked point just above the origin: its integer cast is (0, 0). -/
def c3wrapCenter : Pt := ⟨1 / 5, 1 / 5⟩

/-- A candidate at (-5, 0): in a 100-wide mask, numpy wraps the negative
    column index -5 to 95, an unmasked pixel, even though the candidate's
    integer-cast position (-5, 0) is within radius 9 of the tracked point's
    integer cast (0, 0). -/
def c3wrapCand : Pt := ⟨-5, 0⟩

/-- A candidate whose integer-cast x coordinate 100 is out of bounds for a
    10x10 mask. -/
def c8bad : Pt := ⟨100, 0⟩

/-- A TrackManager holding one track with exactly two observations. -/
def tm4 : TrackManager := ⟨20, 1, [(0, [⟨1, 1⟩, ⟨2, 2⟩])]⟩

/-- A TrackManager holding one track with three observations. -/
def tm5 : TrackManager := ⟨20, 1, [(0, [⟨1, 1⟩, ⟨2, 2⟩, ⟨3, 3⟩])]⟩

/-- A calibration value used by the dataset-composer fixtures. -/
def calib0 : ScaledCalib := ⟨kitti_00_02, 1⟩

/-- A sample rigid transform used by the pose round-trip witness. -/
def pose1 : RigidTransform := ⟨1, 0, 0, 0, 1, 0, 0, 0, 1, 10, 20, 30⟩

/-- Membership characterization for the propagation step's trace: the
    `prune=True` add happens exactly on a two-frame buffer with non-empty
    previous points, with the recorded arguments. -/
theorem mem_trackStep_snd {Img : Type} (P : KLTParams Img) (tm : TrackManager)
    (ims : List Img) (prev curr : Img) (ts : List Pt) (gids : List ℕ) :
    AddEvent.addTracked prev curr ts gids ∈ (trackStep P tm ims).2 ↔
      (tm.pts ≠ [] ∧ ims = [prev, curr] ∧ ts = P.track prev curr tm.pts ∧
       gids = tm.ids) := by
  rcases ims with _ | ⟨a, _ | ⟨b, _ | ⟨c, rest⟩⟩⟩
  · simp [trackStep]
  · simp [trackStep]
  · by_cases hp : tm.pts = []
    · simp [trackStep, hp]
    · simp only [trackStep, List.isEmpty_iff, if_neg hp]
      constructor
      · intro hmem
        have h := List.mem_singleton.mp hmem
        injection h with h1 h2 h3 h4
        exact ⟨hp, by rw [h1, h2], by rw [h1, h2, h3], by rw [h4]⟩
      · rintro ⟨-, h2, h3, h4⟩
        injection h2 with ha hb
        injection hb with hb htail
        subst ha; subst hb; subst h3; subst h4
        exact List.mem_singleton.mpr rfl
  · simp [show (trackStep P tm (a :: b :: c :: rest)).2 = [] from rfl]

/-- Dissection of a successful `process` call: the buffer is the deque push
    of the preprocessed frame, the add-features flag ends false, min_tracks
    is preserved, the returned pair is the final (ids, pts), and either the
    replenish branch ran (flag-or-low-count true, a new-points add appended
    to the trace) or it did not (flag-or-low-count false, trace is just the
    propagation step's). -/
theorem process_ok_cases {Img : Type} (P : KLTParams Img) (s : KLT Img) (im : Img)
    (d : Option (List Pt)) (r : ProcResult Img)
    (h : KLT.process P s im d = .ok r) :
    r.state.ims = dequePush s.ims (P.pre im) ∧
    r.state.add_features = false ∧
    r.state.min_tracks = s.min_tracks ∧
    r.ret = (r.state.tm.ids, r.state.tm.pts) ∧
    ((∃ newPts, (s.add_features || decide (s.tm.pts.length < s.min_tracks)) = true ∧
        replenishPts P im s.tm.pts d = .ok newPts ∧
        r.state.tm = (trackStep P s.tm (dequePush s.ims (P.pre im))).1.add newPts none false ∧
        r.trace = (trackStep P s.tm (dequePush s.ims (P.pre im))).2 ++ [.addNew newPts]) ∨
     ((s.add_features || decide (s.tm.pts.length < s.min_tracks)) = false ∧
        r.state.tm = (trackStep P s.tm (dequePush s.ims (P.pre im))).1 ∧
        r.trace = (trackStep P s.tm (dequePush s.ims (P.pre im))).2)) := by
  simp only [KLT.process] at h
  split at h
  · next haf =>
    split at h
    · exact absurd h (by simp)
    · injection h with h'
      subst h'
      refine ⟨rfl, rfl, rfl, rfl, Or.inl ⟨_, haf, ?_, rfl, rfl⟩⟩
      assumption
  · next haf =>
    injection h with h'
    subst h'
    have hf : (s.add_features || decide (s.tm.pts.length < s.min_tracks)) = false :=
      Bool.not_eq_true _ |>.mp haf
    exact ⟨rfl, hf, rfl, rfl, Or.inr ⟨hf, rfl, rfl⟩⟩

/-- Claim C1 as stated is false: from a state with the add-features flag set
    (bootstrap), a process call whose candidate filtering accepts no points
    adds nothing to the TrackManager (its tracks are unchanged) yet still
    clears the flag. -/
theorem C1_counterexample :
    KLT.process P0 s0 () (some []) =
      .ok ⟨⟨tmEmpty, [()], false, 1200⟩, ([], []), [AddEvent.addNew []]⟩ ∧
    s0.add_features = true ∧ tmEmpty.tracks = s0.tm.tracks :=
  ⟨rfl, rfl, rfl⟩

/-- Claim C1 (amended): the add-features flag never survives a successful
    process call: whenever the flag is set (or the point count is below
    min_tracks) the replenish branch runs within that same call and clears
    the flag unconditionally, whether or not any new points were added; in
    the remaining case the recomputed flag is already false. -/
theorem C1_flag_cleared {Img : Type} (P : KLTParams Img) (s : KLT Img) (im : Img)
    (d : Option (List Pt)) (r : ProcResult Img)
    (h : KLT.process P s im d = .ok r) : r.state.add_features = false :=
  (process_ok_cases P s im d r h).2.1

/-- Witness for C1_flag_cleared at a concrete successful call. -/
theorem C1_flag_cleared_witness :
    ((⟨⟨tmEmpty, [()], false, 1200⟩, ([], []), [AddEvent.addNew []]⟩ :
        ProcResult Unit)).state.add_features = false :=
  C1_flag_cleared P0 s0 () (some [])
    ⟨⟨tmEmpty, [()], false, 1200⟩, ([], []), [AddEvent.addNew []]⟩ rfl

/-- Claim C2: in every successful process call, the propagation add - the
    call `tm.add(tracker.track(ims[-2], ims[-1], ppts), ids=pids, prune=True)`
    - occurs exactly when two preprocessed frames are buffered and the
    previous point set is non-empty, and then its arguments are exactly the
    two buffered frames, the tracker output on the previous points and the
    previous ids; otherwise no propagation/prune call occurs. -/
theorem C2_propagation {Img : Type} (P : KLTParams Img) (s : KLT Img) (im : Img)
    (d : Option (List Pt)) (r : ProcResult Img)
    (h : KLT.process P s im d = .ok r) (prev curr : Img) (ts : List Pt)
    (gids : List ℕ) :
    AddEvent.addTracked prev curr ts gids ∈ r.trace ↔
      (s.tm.pts ≠ [] ∧ dequePush s.ims (P.pre im) = [prev, curr] ∧
       ts = P.track prev curr s.tm.pts ∧ gids = s.tm.ids) := by
  rcases (process_ok_cases P s im d r h).2.2.2.2 with ⟨newPts, -, -, -, htr⟩ | ⟨-, -, htr⟩
  · rw [htr]
    rw [← mem_trackStep_snd P s.tm (dequePush s.ims (P.pre im)) prev curr ts gids]
    simp
  · rw [htr, mem_trackStep_snd]

/-- Witness for C2_propagation at a concrete call in which the propagation
    step fires. -/
theorem C2_propagation_witness :
    (AddEvent.addTracked 5 7 [⟨1, 1⟩] [0] ∈ R2.trace) ↔
      (s2.tm.pts ≠ [] ∧ dequePush s2.ims (P1.pre 7) = [5, 7] ∧
       [(⟨1, 1⟩ : Pt)] = P1.track 5 7 s2.tm.pts ∧ [0] = s2.tm.ids) :=
  C2_propagation P1 s2 7 none R2 rfl 5 7 [⟨1, 1⟩] [0]

/-- Helper: a valid nonnegative numpy index is returned unwrapped. -/
theorem wrapIdx_nonneg_eq (n : ℕ) (i : ℤ) (j : ℕ) (h0 : 0 ≤ i)
    (hw : wrapIdx n i = some j) : (j : ℤ) = i := by
  unfold wrapIdx at hw
  split at hw
  · next hcond =>
    injection hw with hj
    subst hj
    rw [show i.emod (n : ℤ) = i from Int.emod_eq_of_lt h0 hcond.2]
    exact Int.toNat_of_nonneg h0
  · cases hw

/-- Helper: a candidate that survives the mask (with in-range nonnegative
    integer-cast coordinates) has its integer-cast position strictly outside
    the radius-9 disk around every tracked point's integer-cast position. -/
theorem maskOkB_separation (shape : ℕ × ℕ) (centers : List Pt) (p : Pt)
    (hokb : maskOkB shape centers p = true)
    (hx : 0 ≤ (truncPt p).1) (hy : 0 ≤ (truncPt p).2) :
    ∀ c ∈ centers, 81 < sqDistZ (truncPt c) (truncPt p) := by
  intro c hc
  unfold maskOkB maskAt at hokb
  rcases hw1 : wrapIdx shape.1 (truncPt p).2 with _ | y
  · rw [hw1] at hokb; simp at hokb
  · rcases hw2 : wrapIdx shape.2 (truncPt p).1 with _ | x
    · rw [hw1, hw2] at hokb; simp at hokb
    · rw [hw1, hw2] at hokb
      simp only [Option.getD_some, decide_eq_true_eq] at hokb
      have hxx : (x : ℤ) = (truncPt p).1 := wrapIdx_nonneg_eq _ _ _ hx hw2
      have hyy : (y : ℤ) = (truncPt p).2 := wrapIdx_nonneg_eq _ _ _ hy hw1
      unfold maskVal at hokb
      split at hokb
      · omega
      · next hany =>
        rw [List.any_eq_true] at hany
        push_neg at hany
        have hnc := hany c hc
        simp only [ne_eq, decide_eq_true_eq] at hnc
        rw [hxx, hyy] at hnc
        rw [show ((truncPt p).1, (truncPt p).2) = truncPt p from rfl] at hnc
        omega

/-- Claim C3 as stated is false: from a state tracking (0.99, 0.99), a
    process call with candidate (7, 7) registers the candidate as a new
    track (the mask is built around integer-cast centers and consulted at
    integer-cast candidate positions), although the candidate lies within
    the exclusion radius 9 of the existing tracked point (squared real
    distance 72.2402 ≤ 81). -/
theorem C3_counterexample :
    KLT.process P3 s3 () (some [c3cand]) = .ok R3 ∧
    sqDistQ c3center c3cand ≤ 81 := by
  constructor
  · have hcf : replenishPts P3 () s3.tm.pts (some [c3cand]) = .ok [c3cand] := by
      simp [replenishPts, candFilter, maskAt, maskOkB, maskVal, wrapIdx, truncPt,
            ratTrunc, sqDistZ, c3center, c3cand, P3, s3, TrackManager.pts]
      norm_num
    simp only [KLT.process, hcf]
    rfl
  · simp [sqDistQ, c3center, c3cand]
    norm_num

/-- Claim C3 (amended): when process replenishes with supplied candidates, a
    candidate is registered iff the occupancy mask is nonzero at its
    integer-cast coordinates (a negative in-range coordinate being wrapped
    by numpy indexing), where the mask is zero exactly on the radius-9 disks
    around the integer-cast positions of the existing tracked points.  For a
    candidate whose integer-cast coordinates are nonnegative this keeps its
    integer-cast position strictly outside radius 9 of every tracked point's
    integer cast; no distance guarantee holds beyond that: the raw sub-pixel
    positions may be within radius 9 (C3_counterexample), and a negative
    in-range candidate is looked up at its wrapped pixel, so even its
    integer-cast position can be within radius 9 of a tracked point's (last
    conjunct: tracked (0.2, 0.2), candidate (-5, 0), 100-wide mask). -/
theorem C3_masked_filter :
    (∀ (shape : ℕ × ℕ) (centers cands res : List Pt),
       candFilter shape centers cands = .ok res →
       (∀ p, p ∈ res ↔ p ∈ cands ∧ maskOkB shape centers p = true) ∧
       (∀ p ∈ res, ∀ c ∈ centers, 0 ≤ (truncPt p).1 → 0 ≤ (truncPt p).2 →
          81 < sqDistZ (truncPt c) (truncPt p))) ∧
    (∀ (Img : Type) (P : KLTParams Img) (s : KLT Img) (im : Img)
       (cands : List Pt) (r : ProcResult Img),
       KLT.process P s im (some cands) = .ok r →
       s.add_features = true →
       ∃ newPts, candFilter (P.shape im) s.tm.pts cands = .ok newPts ∧
         AddEvent.addNew newPts ∈ r.trace) ∧
    (candFilter (100, 100) [c3wrapCenter] [c3wrapCand] = .ok [c3wrapCand] ∧
       sqDistZ (truncPt c3wrapCenter) (truncPt c3wrapCand) ≤ 81) := by
  refine ⟨?_, ?_, ?_, ?_⟩
  · intro shape centers cands res hcf
    unfold candFilter at hcf
    split at hcf
    · injection hcf with hres
      subst hres
      refine ⟨fun p => List.mem_filter, ?_⟩
      intro p hp c hc hx hy
      exact maskOkB_separation shape centers p (List.mem_filter.mp hp).2 hx hy c hc
    · cases hcf
  · intro Img P s im cands r hproc haf
    rcases (process_ok_cases P s im (some cands) r hproc).2.2.2.2 with
      ⟨newPts, hb, hrep, htm, htr⟩ | ⟨hb, -, -⟩
    · refine ⟨newPts, hrep, ?_⟩
      rw [htr]
      simp
    · rw [haf] at hb
      simp at hb
  · have hceil : (⌈(-5 : ℚ)⌉ : ℤ) = -5 := by
      rw [show (-5 : ℚ) = ((-5 : ℤ) : ℚ) by norm_num]
      exact Int.ceil_intCast _
    have htc : truncPt c3wrapCand = (-5, 0) := by
      simp [truncPt, ratTrunc, c3wrapCand, hceil]
    have htcc : truncPt c3wrapCenter = (0, 0) := by
      simp [truncPt, ratTrunc, c3wrapCenter]
      norm_num
    have hmv : maskAt (100, 100) [c3wrapCenter] c3wrapCand = some 255 := by
      norm_num [maskAt, wrapIdx, maskVal, htc, htcc, sqDistZ]
    have hokb : maskOkB (100, 100) [c3wrapCenter] c3wrapCand = true := by
      simp [maskOkB, hmv]
    simp [candFilter, hmv, hokb]
  · have hceil : (⌈(-5 : ℚ)⌉ : ℤ) = -5 := by
      rw [show (-5 : ℚ) = ((-5 : ℤ) : ℚ) by norm_num]
      exact Int.ceil_intCast _
    have htc : truncPt c3wrapCand = (-5, 0) := by
      simp [truncPt, ratTrunc, c3wrapCand, hceil]
    have htcc : truncPt c3wrapCenter = (0, 0) := by
      simp [truncPt, ratTrunc, c3wrapCenter]
      norm_num
    rw [htc, htcc]
    norm_num [sqDistZ]

/-- Witness for C3_masked_filter at the concrete fixture. -/
theorem C3_masked_filter_witness :
    ((c3cand ∈ ([c3cand] : List Pt)) ↔
      (c3cand ∈ ([c3cand] : List Pt) ∧ maskOkB (20, 20) [c3center] c3cand = true)) ∧
    81 < sqDistZ (truncPt c3center) (truncPt c3cand) ∧
    (∃ newPts, candFilter (P3.shape ()) s3.tm.pts [c3cand] = .ok newPts ∧
       AddEvent.addNew newPts ∈ R3.trace) := by
  have hcf : candFilter (20, 20) [c3center] [c3cand] = .ok [c3cand] := by
    simp [candFilter, maskAt, maskOkB, maskVal, wrapIdx, truncPt, ratTrunc, sqDistZ,
          c3center, c3cand]
    norm_num
  have h1 := C3_masked_filter.1 (20, 20) [c3center] [c3cand] [c3cand] hcf
  have hproc : KLT.process P3 s3 () (some [c3cand]) = .ok R3 := by
    have hrp : replenishPts P3 () s3.tm.pts (some [c3cand]) = .ok [c3cand] := by
      simp [replenishPts, candFilter, maskAt, maskOkB, maskVal, wrapIdx, truncPt,
            ratTrunc, sqDistZ, c3center, c3cand, P3, s3, TrackManager.pts]
      norm_num
    simp only [KLT.process, hrp]
    rfl
  refine ⟨h1.1 c3cand, ?_, C3_masked_filter.2.1 Unit P3 s3 () [c3cand] R3 hproc rfl⟩
  exact h1.2 c3cand (by simp) c3center (by simp)
    (by norm_num [truncPt, ratTrunc, c3cand]) (by norm_num [truncPt, ratTrunc, c3cand])

/-- Helper: a filterMap whose function is total on the list is a map. -/
theorem filterMap_eq_map_getD {α β : Type} (f : α → Option β) (d : β) (l : List α)
    (h : ∀ x ∈ l, (f x).isSome) :
    l.filterMap f = l.map (fun x => (f x).getD d) := by
  induction l with
  | nil => rfl
  | cons a t ih =>
    have ha := h a (List.mem_cons_self a t)
    rcases hfa : f a with _ | b
    · rw [hfa] at ha; simp at ha
    · simp only [List.filterMap_cons, List.map_cons, hfa, Option.getD_some]
      rw [ih (fun x hx => h x (List.mem_cons_of_mem a hx))]

/-- Helper: python indexing succeeds whenever |i| is strictly below the
    length (the guard used by matches), for positive or negative i. -/
theorem pyGet_isSome_of_natAbs_lt (h : List Pt) (i : ℤ)
    (hlt : i.natAbs < h.length) : (pyGet h i).isSome := by
  unfold pyGet
  by_cases hneg : i < 0
  · simp only [if_pos hneg]
    have h0 : 0 ≤ (h.length : ℤ) + i := by omega
    have h1 : (h.length : ℤ) + i < (h.length : ℤ) := by omega
    rw [if_pos ⟨h0, h1⟩]
    have hx : ((h.length : ℤ) + i).toNat < h.length := by omega
    simp [List.getElem?_eq_getElem hx]
  · simp only [if_neg hneg]
    have h0 : 0 ≤ i := by omega
    have h1 : i < (h.length : ℤ) := by omega
    rw [if_pos ⟨h0, h1⟩]
    have hx : i.toNat < h.length := by omega
    simp [List.getElem?_eq_getElem hx]

/-- Claim C4 as stated is false: a track with exactly two observations has
    valid entries at the default offsets -2 and -1, yet matches(-2, -1)
    returns empty arrays because the source guard demands
    len(pts) > abs(-2), i.e. at least three observations. -/
theorem C4_counterexample :
    BaseKLT.matches tm4 (-2) (-1) = ([], [], []) ∧
      pyGet [⟨1, 1⟩, ⟨2, 2⟩] (-2) = some ⟨1, 1⟩ ∧
      pyGet [⟨1, 1⟩, ⟨2, 2⟩] (-1) = some ⟨2, 2⟩ :=
  ⟨rfl, rfl, rfl⟩

/-- Claim C4 (amended): matches(index1, index2) returns parallel arrays with
    exactly one entry per track whose history length strictly exceeds both
    |index1| and |index2| (so with the defaults -2, -1 a track needs at
    least three observations, not two), each entry pairing the track id with
    its points at the two offsets; when no track qualifies it returns empty
    arrays rather than raising. -/
theorem C4_matches (tm : TrackManager) (i1 i2 : ℤ) :
    (BaseKLT.matches tm i1 i2).1 = (matchesSel tm i1 i2).map Prod.fst ∧
    (BaseKLT.matches tm i1 i2).2.1 =
      (matchesSel tm i1 i2).map (fun t => (pyGet t.2 i1).getD ⟨0, 0⟩) ∧
    (BaseKLT.matches tm i1 i2).2.2 =
      (matchesSel tm i1 i2).map (fun t => (pyGet t.2 i2).getD ⟨0, 0⟩) ∧
    (∀ t, t ∈ matchesSel tm i1 i2 ↔
       t ∈ tm.tracks ∧ i1.natAbs < t.2.length ∧ i2.natAbs < t.2.length) ∧
    (∀ t ∈ matchesSel tm i1 i2, (pyGet t.2 i1).isSome ∧ (pyGet t.2 i2).isSome) ∧
    (matchesSel tm i1 i2 = [] → BaseKLT.matches tm i1 i2 = ([], [], [])) := by
  have hsel : ∀ t ∈ matchesSel tm i1 i2,
      i1.natAbs < t.2.length ∧ i2.natAbs < t.2.length := by
    intro t ht
    have := (List.mem_filter.mp ht).2
    rw [Bool.and_eq_true, decide_eq_true_eq, decide_eq_true_eq] at this
    exact this
  refine ⟨rfl, ?_, ?_, ?_, ?_, ?_⟩
  · exact filterMap_eq_map_getD _ _ _
      (fun t ht => pyGet_isSome_of_natAbs_lt t.2 i1 (hsel t ht).1)
  · exact filterMap_eq_map_getD _ _ _
      (fun t ht => pyGet_isSome_of_natAbs_lt t.2 i2 (hsel t ht).2)
  · intro t
    rw [matchesSel, List.mem_filter]
    simp
  · intro t ht
    exact ⟨pyGet_isSome_of_natAbs_lt t.2 i1 (hsel t ht).1,
           pyGet_isSome_of_natAbs_lt t.2 i2 (hsel t ht).2⟩
  · intro hempty
    unfold BaseKLT.matches
    rw [hempty]
    rfl

/-- Witness for C4_matches at a concrete three-observation track. -/
theorem C4_matches_witness :
    (BaseKLT.matches tm5 (-2) (-1)).1 = (matchesSel tm5 (-2) (-1)).map Prod.fst :=
  (C4_matches tm5 (-2) (-1)).1

/-- Claim C5: kitti_stereo_calib maps sequence numbers 0-2 to the scaled
    kitti_00_02 entry, 3 to kitti_03, 4-12 to kitti_04_12, and raises for
    every other integer; in particular sequence 0 and 3 succeed and 13
    fails. -/
theorem C5_calib_ranges :
    (∀ (s : ℤ) (scale : ℚ),
      (kitti_stereo_calib s scale = .ok ⟨kitti_00_02, scale⟩ ↔ 0 ≤ s ∧ s ≤ 2) ∧
      (kitti_stereo_calib s scale = .ok ⟨kitti_03, scale⟩ ↔ s = 3) ∧
      (kitti_stereo_calib s scale = .ok ⟨kitti_04_12, scale⟩ ↔ 4 ≤ s ∧ s ≤ 12) ∧
      ((∃ e, kitti_stereo_calib s scale = .error e) ↔ ¬(0 ≤ s ∧ s ≤ 12))) ∧
    kitti_stereo_calib 0 1 = .ok ⟨kitti_00_02, 1⟩ ∧
    kitti_stereo_calib 3 1 = .ok ⟨kitti_03, 1⟩ ∧
    (∃ e, kitti_stereo_calib 13 1 = .error e) := by
  have ha : kitti_00_02 ≠ kitti_03 := by
    simp only [kitti_00_02, kitti_03, ne_eq, StereoCameraParams.mk.injEq, not_and]
    intro h
    norm_num at h
  have hb : kitti_00_02 ≠ kitti_04_12 := by
    simp only [kitti_00_02, kitti_04_12, ne_eq, StereoCameraParams.mk.injEq, not_and]
    intro h
    norm_num at h
  have hc : kitti_03 ≠ kitti_04_12 := by
    simp only [kitti_03, kitti_04_12, ne_eq, StereoCameraParams.mk.injEq, not_and]
    intro h
    norm_num at h
  refine ⟨?_, rfl, rfl, ⟨_, rfl⟩⟩
  intro s scale
  unfold kitti_stereo_calib
  split_ifs with h1 h2 h3
  · refine ⟨?_, ?_, ?_, ?_⟩
    · simp [h1]
    · simp only [Except.ok.injEq, ScaledCalib.mk.injEq]
      constructor
      · intro h; exact absurd h.1 ha
      · intro h; omega
    · simp only [Except.ok.injEq, ScaledCalib.mk.injEq]
      constructor
      · intro h; exact absurd h.1 hb
      · intro h; omega
    · constructor
      · rintro ⟨e, he⟩; cases he
      · intro h; exact absurd ⟨h1.1, by omega⟩ h
  · refine ⟨?_, ?_, ?_, ?_⟩
    · simp only [Except.ok.injEq, ScaledCalib.mk.injEq]
      constructor
      · intro h; exact absurd h.1.symm ha
      · intro h; exact absurd h h1
    · simp [h2]
    · simp only [Except.ok.injEq, ScaledCalib.mk.injEq]
      constructor
      · intro h; exact absurd h.1 hc
      · intro h; omega
    · constructor
      · rintro ⟨e, he⟩; cases he
      · intro h; exact absurd ⟨by omega, by omega⟩ h
  · refine ⟨?_, ?_, ?_, ?_⟩
    · simp only [Except.ok.injEq, ScaledCalib.mk.injEq]
      constructor
      · intro h; exact absurd h.1.symm hb
      · intro h; exact absurd h h1
    · simp only [Except.ok.injEq, ScaledCalib.mk.injEq]
      constructor
      · intro h; exact absurd h.1.symm hc
      · intro h; exact absurd h h2
    · simp [h3]
    · constructor
      · rintro ⟨e, he⟩; cases he
      · intro h; exact absurd ⟨by omega, by omega⟩ h
  · refine ⟨?_, ?_, ?_, ?_⟩
    · constructor
      · intro h; cases h
      · intro h; exact absurd h h1
    · constructor
      · intro h; cases h
      · intro h; exact absurd h h2
    · constructor
      · intro h; cases h
      · intro h; exact absurd h h3
    · constructor
      · intro h hcon
        rcases not_and_or.mp h1 with hx | hx <;> rcases not_and_or.mp h3 with hy | hy <;>
          omega
      · intro h; exact ⟨_, rfl⟩

/-- Witness for C5_calib_ranges at a concrete in-range sequence. -/
theorem C5_calib_ranges_witness :
    kitti_stereo_calib 5 1 = .ok ⟨kitti_04_12, 1⟩ ↔ 4 ≤ (5 : ℤ) ∧ (5 : ℤ) ≤ 12 :=
  (C5_calib_ranges.1 5 1).2.2.1

/-- Claim C6 as stated is false: in KITTIRawDatasetReader the velodyne
    reader construction is not wrapped in try/except, so a velodyne reader
    that fails to initialize aborts construction of the composer instead of
    degrading to a placeholder. -/
theorem C6_counterexample :
    @KITTIRawDatasetReader.init Unit Unit Unit Unit (.ok calib0) (.ok ()) (.ok ())
      (.error "velodyne reader failed") (.ok ()) = .error "velodyne reader failed" :=
  rfl

/-- Claim C6 (amended): in KITTIDatasetReader a failed pose or velodyne
    reader degrades to the infinite None placeholder and construction
    succeeds; in KITTIRawDatasetReader the pose and OXTS readers degrade
    likewise, but a failed velodyne reader propagates and construction
    fails; the placeholder yields None at every index. -/
theorem C6_optional_modalities :
    (∀ (S PR VR : Type) (c : ScaledCalib) (st : S) (p : Except String PR)
       (v : Except String VR),
       KITTIDatasetReader.init (.ok c) (.ok st) p v =
         .ok ⟨c, st, toModality p, toModality v⟩) ∧
    (∀ (S PR VR OR : Type) (c : ScaledCalib) (st : S) (p : Except String PR)
       (v : VR) (o : Except String OR),
       KITTIRawDatasetReader.init (.ok c) (.ok st) p (.ok v) o =
         .ok ⟨c, st, toModality p, v, toModality o⟩) ∧
    (∀ (S PR VR OR : Type) (c : Except String ScaledCalib) (st : Except String S)
       (p : Except String PR) (e : String) (o : Except String OR),
       ∃ e2, @KITTIRawDatasetReader.init S PR VR OR c st p (.error e) o = .error e2) ∧
    (∀ (α β : Type) (run : α → ℕ → Option β) (n : ℕ),
       Modality.stream run Modality.absent n = none) ∧
    (∀ (α : Type) (e : String),
       toModality (Except.error e : Except String α) = Modality.absent) := by
  refine ⟨fun S PR VR c st p v => rfl, fun S PR VR OR c st p v o => rfl, ?_,
          fun α β run n => rfl, fun α e => rfl⟩
  intro S PR VR OR c st p e o
  cases c with
  | error e1 => exact ⟨e1, rfl⟩
  | ok c1 =>
    cases st with
    | error e1 => exact ⟨e1, rfl⟩
    | ok st1 => exact ⟨e, rfl⟩

/-- Witness for C6_optional_modalities: a composer with failed pose and
    velodyne readers still constructs, with placeholders installed. -/
theorem C6_optional_modalities_witness :
    KITTIDatasetReader.init (.ok calib0) (Except.ok () : Except String Unit)
      (Except.error "no poses" : Except String Unit)
      (Except.error "no velodyne" : Except String Unit) =
      .ok ⟨calib0, (), toModality (Except.error "no poses"),
           toModality (Except.error "no velodyne")⟩ :=
  C6_optional_modalities.1 Unit Unit Unit calib0 () (Except.error "no poses")
    (Except.error "no velodyne")

/-- Helper: the rolling buffer never exceeds two entries. -/
theorem lastTwo_length_le {α : Type} (l : List α) : (lastTwo l).length ≤ 2 := by
  simp [lastTwo]

/-- Helper: pushing onto a buffer that is already the last-two of a history
    gives the last-two of the extended history. -/
theorem dequePush_lastTwo {α : Type} (l : List α) (x : α) :
    dequePush (lastTwo l) x = lastTwo (l ++ [x]) := by
  simp [dequePush, lastTwo, List.reverse_append, List.take_take]

/-- Helper: folding deque pushes computes the last two of the whole input. -/
theorem foldl_dequePush_lastTwo {α : Type} (xs : List α) :
    ∀ l : List α, List.foldl dequePush (lastTwo l) xs = lastTwo (l ++ xs) := by
  induction xs with
  | nil => intro l; simp
  | cons x t ih =>
    intro l
    simp only [List.foldl_cons]
    rw [dequePush_lastTwo, ih (l ++ [x])]
    simp

/-- Helper: across a successful run, the frame buffer is the fold of deque
    pushes of the preprocessed images. -/
theorem runKLT_ims {Img : Type} (P : KLTParams Img)
    (inputs : List (Img × Option (List Pt))) :
    ∀ (s0 sf : KLT Img), runKLT P s0 inputs = .ok sf →
      sf.ims = List.foldl dequePush s0.ims (inputs.map (fun x => P.pre x.1)) := by
  induction inputs with
  | nil =>
    intro s0 sf h
    injection h with h'
    subst h'
    rfl
  | cons a rest ih =>
    intro s0 sf h
    obtain ⟨im, d⟩ := a
    unfold runKLT at h
    rcases hp : KLT.process P s0 im d with e | r
    · rw [hp] at h; cases h
    · rw [hp] at h
      rw [ih r.state sf h, (process_ok_cases P s0 im d r hp).1]
      rfl

/-- Claim C7: starting from an empty buffer, after any successful sequence
    of process calls the buffer holds exactly the (at most) two most
    recently preprocessed images, each step pushes with eviction of the
    oldest, and any optical-flow propagation in a step operates precisely on
    the two images of that step's updated buffer. -/
theorem C7_buffer {Img : Type} (P : KLTParams Img)
    (inputs : List (Img × Option (List Pt))) (s0 sf : KLT Img)
    (h0 : s0.ims = []) (h : runKLT P s0 inputs = .ok sf) :
    sf.ims = lastTwo (inputs.map (fun x => P.pre x.1)) ∧
    sf.ims.length ≤ 2 ∧
    (∀ (s : KLT Img) (im : Img) (d : Option (List Pt)) (r : ProcResult Img),
       KLT.process P s im d = .ok r →
       r.state.ims = dequePush s.ims (P.pre im) ∧
       (∀ prev curr ts gids, AddEvent.addTracked prev curr ts gids ∈ r.trace →
          r.state.ims = [prev, curr])) := by
  have h1 : sf.ims = lastTwo (inputs.map fun x => P.pre x.1) := by
    have hr := runKLT_ims P inputs s0 sf h
    rw [h0] at hr
    rw [hr, show ([] : List Img) = lastTwo [] from rfl, foldl_dequePush_lastTwo]
    simp
  refine ⟨h1, by rw [h1]; exact lastTwo_length_le _, ?_⟩
  intro s im d r hr
  refine ⟨(process_ok_cases P s im d r hr).1, ?_⟩
  intro prev curr ts gids hmem
  rcases (process_ok_cases P s im d r hr).2.2.2.2 with ⟨nps, -, -, -, htr⟩ | ⟨-, -, htr⟩
  · rw [htr] at hmem
    rw [List.mem_append] at hmem
    rcases hmem with hmem | hmem
    · have hts := (mem_trackStep_snd P s.tm (dequePush s.ims (P.pre im)) prev curr ts
        gids).mp hmem
      rw [(process_ok_cases P s im d r hr).1, hts.2.1]
    · simp at hmem
  · rw [htr] at hmem
    have hts := (mem_trackStep_snd P s.tm (dequePush s.ims (P.pre im)) prev curr ts
      gids).mp hmem
    rw [(process_ok_cases P s im d r hr).1, hts.2.1]

/-- Witness for C7_buffer after a concrete successful three-frame run. -/
theorem C7_buffer_witness :
    (⟨tmEmpty, [2, 3], false, 0⟩ : KLT ℕ).ims =
      lastTwo (([(1, none), (2, none), (3, none)] :
        List (ℕ × Option (List Pt))).map (fun x => P1.pre x.1)) ∧
    (⟨tmEmpty, [2, 3], false, 0⟩ : KLT ℕ).ims.length ≤ 2 ∧
    (∀ (s : KLT ℕ) (im : ℕ) (d : Option (List Pt)) (r : ProcResult ℕ),
       KLT.process P1 s im d = .ok r →
       r.state.ims = dequePush s.ims (P1.pre im) ∧
       (∀ prev curr ts gids, AddEvent.addTracked prev curr ts gids ∈ r.trace →
          r.state.ims = [prev, curr])) :=
  C7_buffer P1 [(1, none), (2, none), (3, none)] s1 ⟨tmEmpty, [2, 3], false, 0⟩ rfl rfl

/-- Claim C8 as stated is false: a well-formed (10x10) image together with a
    supplied candidate whose integer-cast coordinates are out of bounds
    makes process raise an index error. -/
theorem C8_counterexample :
    KLT.process P0 s0 () (some [c8bad]) = .error "index out of bounds" :=
  rfl

/-- Helper: an Except value that is never an error is ok. -/
theorem exists_ok_of_no_error {E A : Type} (x : Except E A)
    (h : ∀ e, x ≠ .error e) : ∃ a, x = .ok a := by
  cases x with
  | error e => exact absurd rfl (h e)
  | ok a => exact ⟨a, rfl⟩

/-- Claim C8 (amended): process completes without raising whenever no
    candidate points are supplied (including when the detector or tracker
    find no points), and with supplied candidates whenever each candidate's
    integer-cast coordinates are valid mask indices; every successful call
    returns the current (ids, pts) pair.  (An out-of-bounds supplied
    candidate raises, per C8_counterexample.) -/
theorem C8_process_total {Img : Type} (P : KLTParams Img) (s : KLT Img) (im : Img)
    (d : Option (List Pt)) :
    (d = none → ∃ r, KLT.process P s im d = .ok r) ∧
    (∀ cands, d = some cands → (∀ p ∈ cands, candIdxOk (P.shape im) p = true) →
       ∃ r, KLT.process P s im d = .ok r) ∧
    (∀ r, KLT.process P s im d = .ok r → r.ret = (r.state.tm.ids, r.state.tm.pts)) := by
  refine ⟨?_, ?_, fun r hr => (process_ok_cases P s im d r hr).2.2.2.1⟩
  · rintro rfl
    apply exists_ok_of_no_error
    intro e hcon
    simp only [KLT.process] at hcon
    split at hcon
    · split at hcon
      · next heq =>
        simp only [replenishPts] at heq
        cases heq
      · cases hcon
    · cases hcon
  · rintro cands rfl hin
    have hall : (cands.all fun p => (maskAt (P.shape im) s.tm.pts p).isSome) = true := by
      rw [List.all_eq_true]
      intro p hp
      have hio := hin p hp
      unfold candIdxOk at hio
      rw [Bool.and_eq_true] at hio
      unfold maskAt
      rcases hw1 : wrapIdx (P.shape im).1 (truncPt p).2 with _ | y
      · rw [hw1] at hio; simp at hio
      · rcases hw2 : wrapIdx (P.shape im).2 (truncPt p).1 with _ | x
        · rw [hw2] at hio; simp at hio
        · simp
    apply exists_ok_of_no_error
    intro e hcon
    simp only [KLT.process] at hcon
    split at hcon
    · split at hcon
      · next heq =>
        simp only [replenishPts] at heq
        unfold candFilter at heq
        rw [hall] at heq
        simp at heq
      · cases hcon
    · cases hcon

/-- Witness for C8_process_total at a concrete detector-only call. -/
theorem C8_process_total_witness :
    ∃ r, KLT.process P0 s0 () none = .ok r :=
  (C8_process_total P0 s0 () none).1 rfl

/-- Claim C9: serializing a list of poses (12 numbers per pose, the top
    three rows of the 4x4 transform, whitespace separated) and parsing the
    token stream back recovers exactly the original rotations and
    translations. -/
theorem C9_poses_roundtrip (ps : List RigidTransform) :
    kitti_load_poses (kitti_poses_to_str ps) = some ps := by
  have hlen : ∀ qs : List RigidTransform, (kitti_poses_to_str qs).length % 12 = 0 := by
    intro qs
    induction qs with
    | nil => rfl
    | cons p t ih =>
      have h12 : (kitti_poses_to_str (p :: t)).length =
          12 + (kitti_poses_to_str t).length := by
        simp [kitti_poses_to_str, RigidTransform.matrixRow]
        omega
      omega
  have hparse : ∀ qs : List RigidTransform,
      parsePoses (kitti_poses_to_str qs) = qs := by
    intro qs
    induction qs with
    | nil => rfl
    | cons p t ih =>
      have h1 : kitti_poses_to_str (p :: t) =
          RigidTransform.matrixRow p ++ kitti_poses_to_str t := by
        simp [kitti_poses_to_str]
      rw [h1]
      rw [show parsePoses (RigidTransform.matrixRow p ++ kitti_poses_to_str t) =
          p :: parsePoses (kitti_poses_to_str t) from rfl]
      rw [ih]
  unfold kitti_load_poses
  rw [if_pos (hlen ps), hparse ps]

/-- Witness for C9_poses_roundtrip at a concrete pose. -/
theorem C9_poses_roundtrip_witness :
    kitti_load_poses (kitti_poses_to_str [pose1]) = some [pose1] :=
  C9_poses_roundtrip [pose1]

/-- Claim C10: every frame record yielded by KITTIDatasetReader.iterframes
    or KITTIStereoGroundTruthDatasetReader.iterframes has velodyne = None,
    regardless of the pose stream or of how the velodyne reader fared. -/
theorem C10_iterframes_velodyne :
    (∀ (I P V : Type) (stereo : List (I × I)) (poses : ℕ → Option P)
       (r : FrameRecord I P V), r ∈ KITTIDatasetReader.iterframes stereo poses →
       r.velodyne = none) ∧
    (∀ (I P V : Type) (stereo : List (I × I)) (r : FrameRecord I P V),
       r ∈ KITTIStereoGroundTruthDatasetReader.iterframes stereo →
       r.velodyne = none) := by
  constructor
  · intro I P V stereo poses r hr
    unfold KITTIDatasetReader.iterframes at hr
    rcases List.mem_map.mp hr with ⟨nlr, -, heq⟩
    rw [← heq]
  · intro I P V stereo r hr
    unfold KITTIStereoGroundTruthDatasetReader.iterframes at hr
    rcases List.mem_map.mp hr with ⟨nlr, -, heq⟩
    rw [← heq]

/-- Witness for C10_iterframes_velodyne at a concrete one-frame dataset. -/
theorem C10_iterframes_velodyne_witness :
    (⟨1, 2, none, none⟩ : FrameRecord ℕ Unit Unit).velodyne = none :=
  C10_iterframes_velodyne.1 ℕ Unit Unit [(1, 2)] (fun _ => none) ⟨1, 2, none, none⟩
    (List.mem_singleton.mpr rfl)
